import Mathlib

/-!
Shallow embedding of `workout_api/atleta/controller.py` (DIO-WorkoutAPI).

The controller is a FastAPI router over a relational store.  We model the
store as three lists of rows (categories, training centers, athletes) and
each handler as a pure function; stateful handlers return the new store
explicitly, and an HTTP error response is an `Except.error` carrying the
status code and detail message raised via `HTTPException`.

External effects are modelled as parameters:
  * `uuid4()` / `datetime.utcnow()` become the `freshId` / `now` arguments
    of `post`;
  * a persistence failure at commit time that is *not* the store's
    uniqueness-constraint violation (the bare `except Exception` branch)
    is modelled by the boolean `dbFault`; the `IntegrityError` branch is
    determined by the store state itself (an existing row with the same
    `cpf`, the store's unique column);
  * transaction atomicity of the session (rollback on error) is modelled
    by returning the original store on every error path.

`limit`/`offset` are modelled as naturals: the spec leaves negative values
store-defined, and every claim exercises only non-negative values.
-/

namespace WorkoutAPI

/-- An HTTP error response as raised by `HTTPException(status_code=..., detail=...)`. -/
structure HTTPError where
  status_code : Nat
  detail : String
deriving Repr, DecidableEq

/-- A row of the Category table (`CategoriaModel`): internal numeric key and name. -/
structure CategoriaModel where
  pk_id : Nat
  nome : String
deriving Repr, DecidableEq

/-- A row of the Training Center table (`CentroTreinamentoModel`). -/
structure CentroTreinamentoModel where
  pk_id : Nat
  nome : String
deriving Repr, DecidableEq

/-- A row of the Athlete table (`AtletaModel`).  `id` is the externally
exposed unique identifier (a UUID in the source, modelled as `Nat`);
`created_at` the creation timestamp (modelled as `Nat`); `cpf` the
national id, unique across athletes by a store constraint;
`categoria_id` / `centro_treinamento_id` the resolved foreign keys.
The scalar attributes `weight`/`height`/`sex` are carried opaquely
(the controller performs no arithmetic on them). -/
structure AtletaModel where
  id : Nat
  created_at : Nat
  nome : String
  cpf : String
  weight : Nat
  height : Nat
  sex : String
  categoria_id : Nat
  centro_treinamento_id : Nat
deriving Repr, DecidableEq

/-- A reference-by-name to a category as it appears in the request body
(`atleta_in.categoria.nome`). -/
structure CategoriaIn where
  nome : String
deriving Repr, DecidableEq

/-- A reference-by-name to a training center as it appears in the request
body (`atleta_in.centro_treinamento.nome`). -/
structure CentroTreinamentoIn where
  nome : String
deriving Repr, DecidableEq

/-- The create request body (`AtletaIn`): athlete fields plus the two
references by name. -/
structure AtletaIn where
  nome : String
  cpf : String
  weight : Nat
  height : Nat
  sex : String
  categoria : CategoriaIn
  centro_treinamento : CentroTreinamentoIn
deriving Repr, DecidableEq

/-- The full athlete representation returned by create (`AtletaOut`):
the input fields plus the generated `id` and `created_at`. -/
structure AtletaOut where
  id : Nat
  created_at : Nat
  nome : String
  cpf : String
  weight : Nat
  height : Nat
  sex : String
  categoria : CategoriaIn
  centro_treinamento : CentroTreinamentoIn
deriving Repr, DecidableEq

/-- Modelled from the spec: the sparse-patch body `AtletaUpdate`
(`workout_api/atleta/schemas.py` is not part of the excerpt).  Per the
spec, any subset of name, national_id, weight, height, sex may be
supplied; `none` means the field is absent from the body
(`model_dump(exclude_unset=True)` omits it), `some v` means it is
explicitly present with value `v`. -/
structure AtletaUpdate where
  nome : Option String := none
  cpf : Option String := none
  weight : Option Nat := none
  height : Option Nat := none
  sex : Option String := none
deriving Repr, DecidableEq

/-- The relational store: one list of rows per table, in insertion order. -/
structure Store where
  categorias : List CategoriaModel
  centros : List CentroTreinamentoModel
  atletas : List AtletaModel
deriving Repr, DecidableEq

/-- `select(CategoriaModel).filter_by(nome=...)...first()`. -/
def findCategoria (s : Store) (nome : String) : Option CategoriaModel :=
  s.categorias.find? (fun c => c.nome == nome)

/-- `select(CentroTreinamentoModel).filter_by(nome=...)...first()`. -/
def findCentroTreinamento (s : Store) (nome : String) : Option CentroTreinamentoModel :=
  s.centros.find? (fun c => c.nome == nome)

/-- `AtletaOut(id=uuid4(), created_at=datetime.utcnow(), **atleta_in.model_dump())`. -/
def atletaOutOf (atleta_in : AtletaIn) (freshId now : Nat) : AtletaOut :=
  { id := freshId
    created_at := now
    nome := atleta_in.nome
    cpf := atleta_in.cpf
    weight := atleta_in.weight
    height := atleta_in.height
    sex := atleta_in.sex
    categoria := atleta_in.categoria
    centro_treinamento := atleta_in.centro_treinamento }

/-- `AtletaModel(**atleta_out.model_dump(exclude=...))` with the two
foreign keys assigned from the looked-up rows. -/
def atletaModelOf (atleta_in : AtletaIn) (freshId now : Nat)
    (categoria_pk centro_pk : Nat) : AtletaModel :=
  { id := freshId
    created_at := now
    nome := atleta_in.nome
    cpf := atleta_in.cpf
    weight := atleta_in.weight
    height := atleta_in.height
    sex := atleta_in.sex
    categoria_id := categoria_pk
    centro_treinamento_id := centro_pk }

/-- The detail message for a missing category. -/
def categoriaNotFoundMsg (nome : String) : String :=
  "A categoria " ++ nome ++ " não foi encontrada."

/-- The detail message for a missing training center. -/
def centroNotFoundMsg (nome : String) : String :=
  "O centro de treinamento " ++ nome ++ " não foi encontrado."

/-- The detail message for a duplicate cpf (`IntegrityError` branch). -/
def duplicateCpfMsg (cpf : String) : String :=
  "Já existe um atleta cadastrado com o cpf: " ++ cpf

/-- The generic detail message of the bare `except Exception` branch. -/
def insertFailureMsg : String :=
  "Ocorreu um erro ao inserir os dados no banco"

/-- `POST /` — create an athlete.  Looks up the category by name (400 if
absent), then the training center by name (400 if absent), then builds
the row and commits.  A commit-time `IntegrityError` (an existing row
with the same `cpf`) maps to 303; any other persistence failure
(`dbFault = true`) maps to 500.  Returns the resulting store alongside
the response. -/
def post (s : Store) (atleta_in : AtletaIn) (freshId now : Nat) (dbFault : Bool) :
    Store × Except HTTPError AtletaOut :=
  match findCategoria s atleta_in.categoria.nome with
  | none =>
      (s, .error ⟨400, categoriaNotFoundMsg atleta_in.categoria.nome⟩)
  | some categoria =>
      match findCentroTreinamento s atleta_in.centro_treinamento.nome with
      | none =>
          (s, .error ⟨400, centroNotFoundMsg atleta_in.centro_treinamento.nome⟩)
      | some centro_treinamento =>
          if s.atletas.any (fun a => a.cpf == atleta_in.cpf) then
            (s, .error ⟨303, duplicateCpfMsg atleta_in.cpf⟩)
          else if dbFault then
            (s, .error ⟨500, insertFailureMsg⟩)
          else
            ({ s with atletas := s.atletas ++
                 [atletaModelOf atleta_in freshId now categoria.pk_id centro_treinamento.pk_id] },
             .ok (atletaOutOf atleta_in freshId now))

/-- The success status code declared on the `POST /` route. -/
def post_status_code : Nat := 201

/-- The summary projection built by the list/search handlers:
`{'nome': ..., 'centro_treinamento': ..., 'categoria': ...}`.  The two
names are reached through the row's relationships; a dangling foreign
key (impossible under the store's invariant) yields `none` where the
source would fail on a missing related object. -/
structure AtletaSummary where
  nome : String
  centro_treinamento : Option String
  categoria : Option String
deriving Repr, DecidableEq

/-- Build the summary dict for one athlete row
(`atleta.centro_treinamento.nome` / `atleta.categoria.nome`). -/
def summaryOf (s : Store) (a : AtletaModel) : AtletaSummary :=
  { nome := a.nome
    centro_treinamento :=
      (s.centros.find? (fun c => c.pk_id == a.centro_treinamento_id)).map
        (fun c => c.nome)
    categoria :=
      (s.categorias.find? (fun c => c.pk_id == a.categoria_id)).map
        (fun c => c.nome) }

/-- The rows selected by `select(AtletaModel).limit(limit).offset(offset)`:
store-default (insertion) order, skip `offset`, cap at `limit`. -/
def listRows (s : Store) (limit offset : Nat) : List AtletaModel :=
  (s.atletas.drop offset).take limit

/-- The default of the `limit` query parameter. -/
def limit_default : Nat := 10

/-- The default of the `offset` query parameter. -/
def offset_default : Nat := 0

/-- `GET /` — list athletes.  Always succeeds, returning the summary
projection of the paginated rows (an empty list when none remain). -/
def query_all (s : Store) (limit offset : Nat) :
    Except HTTPError (List AtletaSummary) :=
  .ok ((listRows s limit offset).map (summaryOf s))

/-- The success status code declared on the `GET /` route. -/
def query_all_status_code : Nat := 200

/-- `if nome: query = query.filter(AtletaModel.nome == nome)` — the filter
is applied only when the parameter is a truthy (non-empty) string. -/
def applyNomeFilter (nome : Option String) (l : List AtletaModel) :
    List AtletaModel :=
  match nome with
  | some n => if n != "" then l.filter (fun a => a.nome == n) else l
  | none => l

/-- `if cpf: query = query.filter(AtletaModel.cpf == cpf)`. -/
def applyCpfFilter (cpf : Option String) (l : List AtletaModel) :
    List AtletaModel :=
  match cpf with
  | some c => if c != "" then l.filter (fun a => a.cpf == c) else l
  | none => l

/-- The rows matching the search filters, before pagination. -/
def filteredRows (s : Store) (nome cpf : Option String) : List AtletaModel :=
  applyCpfFilter cpf (applyNomeFilter nome s.atletas)

/-- The filtered rows after `.limit(limit).offset(offset)`. -/
def searchRows (s : Store) (nome cpf : Option String) (limit offset : Nat) :
    List AtletaModel :=
  ((filteredRows s nome cpf).drop offset).take limit

/-- The detail message of the empty-search 404. -/
def searchNotFoundMsg : String :=
  "Nenhum atleta encontrado com o critério fornecido."

/-- `GET /search` — search by name and/or cpf.  Builds the same summary
projection as `query_all` over the filtered, paginated rows, but raises
404 when that response list is empty. -/
def query_by_name_or_cpf (s : Store) (nome cpf : Option String)
    (limit offset : Nat) : Except HTTPError (List AtletaSummary) :=
  let atletas_response := (searchRows s nome cpf limit offset).map (summaryOf s)
  if atletas_response.isEmpty then
    .error ⟨404, searchNotFoundMsg⟩
  else
    .ok atletas_response

/-- The success status code declared on the `GET /search` route. -/
def search_status_code : Nat := 200

/-- The detail message of the fetch/patch/delete 404. -/
def atletaNotFoundMsg (id : Nat) : String :=
  "Atleta não encontrado com o ID: " ++ toString id

/-- `GET` by id — modelled by looking up the first row with the given id. -/
def query_by_id (s : Store) (id : Nat) : Except HTTPError AtletaModel :=
  match s.atletas.find? (fun a => a.id == id) with
  | none => .error ⟨404, atletaNotFoundMsg id⟩
  | some a => .ok a

/-- The success status code declared on the `GET /` by-id route. -/
def query_by_id_status_code : Nat := 200

/-- `setattr` application of `model_dump(exclude_unset=True)`: each field
explicitly present in the body overwrites the row's field; absent fields,
and the identity/relational fields (`id`, `created_at`, `categoria_id`,
`centro_treinamento_id`, which `AtletaUpdate` does not carry), are left
untouched. -/
def applyUpdate (a : AtletaModel) (u : AtletaUpdate) : AtletaModel :=
  { a with
    nome := u.nome.getD a.nome
    cpf := u.cpf.getD a.cpf
    weight := u.weight.getD a.weight
    height := u.height.getD a.height
    sex := u.sex.getD a.sex }

/-- The store after the patch commit: the row with the given id (the
store's primary key) updated in place. -/
def patchedStore (s : Store) (id : Nat) (atleta_up : AtletaUpdate) : Store :=
  { s with atletas :=
      s.atletas.map (fun x => if x.id == id then applyUpdate x atleta_up else x) }

/-- `PATCH` by id — sparse update.  404 when the id does not resolve;
otherwise applies exactly the explicitly present fields, commits, and
returns the refreshed row. -/
def patch (s : Store) (id : Nat) (atleta_up : AtletaUpdate) :
    Store × Except HTTPError AtletaModel :=
  match s.atletas.find? (fun a => a.id == id) with
  | none => (s, .error ⟨404, atletaNotFoundMsg id⟩)
  | some a => (patchedStore s id atleta_up, .ok (applyUpdate a atleta_up))

/-- The success status code declared on the `PATCH` route. -/
def patch_status_code : Nat := 200

/-- `DELETE` by id — 404 when the id does not resolve; otherwise removes
the row (id is the primary key) and commits, returning no content. -/
def delete (s : Store) (id : Nat) : Store × Except HTTPError Unit :=
  match s.atletas.find? (fun a => a.id == id) with
  | none => (s, .error ⟨404, atletaNotFoundMsg id⟩)
  | some _ => ({ s with atletas := s.atletas.filter (fun a => a.id != id) }, .ok ())

/-- The success status code declared on the `DELETE` route. -/
def delete_status_code : Nat := 204

/-! ### Concrete fixtures used by the witnesses -/

/-- An empty store. -/
def store0 : Store := ⟨[], [], []⟩

/-- A category row named `CrossFit`. -/
def categoria0 : CategoriaModel := ⟨1, "CrossFit"⟩

/-- A training-center row named `Box1`. -/
def centro0 : CentroTreinamentoModel := ⟨2, "Box1"⟩

/-- An athlete row with cpf `111`. -/
def atleta0 : AtletaModel := ⟨5, 3, "Ana", "111", 60, 170, "F", 1, 2⟩

/-- A store holding `categoria0`, `centro0` and `atleta0`. -/
def store1 : Store := ⟨[categoria0], [centro0], [atleta0]⟩

/-- A create body referencing `CrossFit`/`Box1` with cpf `111`. -/
def atletaIn0 : AtletaIn := ⟨"Ana", "111", 60, 170, "F", ⟨"CrossFit"⟩, ⟨"Box1"⟩⟩

/-- A create body referencing `CrossFit`/`Box1` with fresh cpf `222`. -/
def atletaIn1 : AtletaIn := ⟨"Bia", "222", 55, 165, "F", ⟨"CrossFit"⟩, ⟨"Box1"⟩⟩

/-! ### Claims -/

/-- C1: the create handler looks up the category first and, when it is
absent, answers 400 naming the category and leaves the store untouched
(no persistence attempt); only when the category resolves does it look up
the training center, answering 400 naming the center when that is absent,
again leaving the store untouched; in particular when both are missing
the error names the category. -/
theorem post_checks_categoria_then_centro (s : Store) (atleta_in : AtletaIn)
    (freshId now : Nat) (dbFault : Bool) :
    (findCategoria s atleta_in.categoria.nome = none →
      post s atleta_in freshId now dbFault =
        (s, .error ⟨400, categoriaNotFoundMsg atleta_in.categoria.nome⟩))
  ∧ (∀ c, findCategoria s atleta_in.categoria.nome = some c →
      findCentroTreinamento s atleta_in.centro_treinamento.nome = none →
      post s atleta_in freshId now dbFault =
        (s, .error ⟨400, centroNotFoundMsg atleta_in.centro_treinamento.nome⟩))
  ∧ (findCategoria s atleta_in.categoria.nome = none →
      findCentroTreinamento s atleta_in.centro_treinamento.nome = none →
      post s atleta_in freshId now dbFault =
        (s, .error ⟨400, categoriaNotFoundMsg atleta_in.categoria.nome⟩)) := by
  refine ⟨fun h => ?_, fun c hc hct => ?_, fun h _ => ?_⟩ <;> simp [post, *]

/-- C1 witness: creating against the empty store fails 400 naming the
category, with the store unchanged. -/
theorem post_checks_categoria_then_centro_witness :
    post store0 atletaIn0 1 2 false =
      (store0, .error ⟨400, categoriaNotFoundMsg "CrossFit"⟩) :=
  (post_checks_categoria_then_centro store0 atletaIn0 1 2 false).1 rfl

/-- C2: when both references resolve and a row with the request's cpf is
already in the store, the commit-time uniqueness violation is mapped to
status 303 with a message naming the duplicate cpf, the store is left
unchanged, and 303 is distinct from the generic 500 failure. -/
theorem post_duplicate_cpf_maps_to_303 (s : Store) (atleta_in : AtletaIn)
    (freshId now : Nat) (dbFault : Bool)
    (c : CategoriaModel) (ct : CentroTreinamentoModel)
    (hc : findCategoria s atleta_in.categoria.nome = some c)
    (hct : findCentroTreinamento s atleta_in.centro_treinamento.nome = some ct)
    (hdup : s.atletas.any (fun a => a.cpf == atleta_in.cpf) = true) :
    post s atleta_in freshId now dbFault =
      (s, .error ⟨303, duplicateCpfMsg atleta_in.cpf⟩) ∧ (303 : Nat) ≠ 500 := by
  exact ⟨by simp [post, hc, hct, hdup], by decide⟩

/-- C2 witness: recreating cpf 111 over `store1` answers 303 naming the cpf. -/
theorem post_duplicate_cpf_maps_to_303_witness :
    post store1 atletaIn0 9 9 false =
      (store1, .error ⟨303, duplicateCpfMsg "111"⟩) ∧ (303 : Nat) ≠ 500 :=
  post_duplicate_cpf_maps_to_303 store1 atletaIn0 9 9 false categoria0 centro0
    rfl rfl rfl

/-- C5: when both references resolve and the commit fails for a reason
other than the uniqueness violation, the handler answers 500 with only
the generic message, and the store is returned unchanged (the failed
insert retains no partial state). -/
theorem post_other_persistence_failure_500 (s : Store) (atleta_in : AtletaIn)
    (freshId now : Nat) (c : CategoriaModel) (ct : CentroTreinamentoModel)
    (hc : findCategoria s atleta_in.categoria.nome = some c)
    (hct : findCentroTreinamento s atleta_in.centro_treinamento.nome = some ct)
    (hdup : s.atletas.any (fun a => a.cpf == atleta_in.cpf) = false) :
    post s atleta_in freshId now true = (s, .error ⟨500, insertFailureMsg⟩) := by
  simp [post, hc, hct, hdup]

/-- C5 witness: a faulted commit of a fresh cpf over `store1` answers the
generic 500 and leaves the store as it was. -/
theorem post_other_persistence_failure_500_witness :
    post store1 atletaIn1 9 9 true = (store1, .error ⟨500, insertFailureMsg⟩) :=
  post_other_persistence_failure_500 store1 atletaIn1 9 9 categoria0 centro0
    rfl rfl rfl

/-- C6: when both lookups succeed and persistence succeeds, the handler
persists the row with the generated identifier, timestamp, and the
foreign keys resolved from the lookups, and returns the full
representation carrying the generated id and timestamp, under the
route's 201 status. -/
theorem post_success_creates_athlete (s : Store) (atleta_in : AtletaIn)
    (freshId now : Nat) (c : CategoriaModel) (ct : CentroTreinamentoModel)
    (hc : findCategoria s atleta_in.categoria.nome = some c)
    (hct : findCentroTreinamento s atleta_in.centro_treinamento.nome = some ct)
    (hdup : s.atletas.any (fun a => a.cpf == atleta_in.cpf) = false) :
    post s atleta_in freshId now false =
      ({ s with atletas :=
           s.atletas ++ [atletaModelOf atleta_in freshId now c.pk_id ct.pk_id] },
       .ok (atletaOutOf atleta_in freshId now))
  ∧ (atletaOutOf atleta_in freshId now).id = freshId
  ∧ (atletaOutOf atleta_in freshId now).created_at = now
  ∧ (atletaModelOf atleta_in freshId now c.pk_id ct.pk_id).categoria_id = c.pk_id
  ∧ (atletaModelOf atleta_in freshId now c.pk_id ct.pk_id).centro_treinamento_id
      = ct.pk_id
  ∧ (atletaOutOf atleta_in freshId now).nome = atleta_in.nome
  ∧ (atletaOutOf atleta_in freshId now).cpf = atleta_in.cpf
  ∧ post_status_code = 201 := by
  exact ⟨by simp [post, hc, hct, hdup], rfl, rfl, rfl, rfl, rfl, rfl, rfl⟩

/-- C3: a search whose filtered, paginated rows are empty answers 404,
while the list handler never errors and answers the empty sequence under
the same empty-result condition. -/
theorem search_empty_404_vs_list_empty_ok (s : Store) (nome cpf : Option String)
    (limit offset : Nat) :
    (searchRows s nome cpf limit offset = [] →
      query_by_name_or_cpf s nome cpf limit offset = .error ⟨404, searchNotFoundMsg⟩)
  ∧ (∀ (s2 : Store) (limit2 offset2 : Nat),
      ∃ res, query_all s2 limit2 offset2 = .ok res)
  ∧ (∀ (s2 : Store) (limit2 offset2 : Nat), listRows s2 limit2 offset2 = [] →
      query_all s2 limit2 offset2 = .ok ([] : List AtletaSummary)) := by
  refine ⟨fun h => ?_, fun s2 l2 o2 => ⟨_, rfl⟩, fun s2 l2 o2 h => ?_⟩
  · simp [query_by_name_or_cpf, h]
  · simp [query_all, h]

/-- C3 witness: on the empty store with defaults, search answers 404 and
list answers the empty sequence. -/
theorem search_empty_404_vs_list_empty_ok_witness :
    query_by_name_or_cpf store0 none none 10 0 = .error ⟨404, searchNotFoundMsg⟩
  ∧ query_all store0 10 0 = .ok ([] : List AtletaSummary) :=
  ⟨(search_empty_404_vs_list_empty_ok store0 none none 10 0).1 rfl,
   (search_empty_404_vs_list_empty_ok store0 none none 10 0).2.2 store0 10 0 rfl⟩

/-- C6 witness: creating cpf 222 over `store1` succeeds, appending the
resolved row and returning the representation with the generated id 9
and timestamp 9. -/
theorem post_success_creates_athlete_witness :
    post store1 atletaIn1 9 9 false =
      ({ store1 with atletas :=
           store1.atletas ++ [atletaModelOf atletaIn1 9 9 categoria0.pk_id centro0.pk_id] },
       .ok (atletaOutOf atletaIn1 9 9))
  ∧ (atletaOutOf atletaIn1 9 9).id = 9
  ∧ (atletaOutOf atletaIn1 9 9).created_at = 9
  ∧ (atletaModelOf atletaIn1 9 9 categoria0.pk_id centro0.pk_id).categoria_id
      = categoria0.pk_id
  ∧ (atletaModelOf atletaIn1 9 9 categoria0.pk_id centro0.pk_id).centro_treinamento_id
      = centro0.pk_id
  ∧ (atletaOutOf atletaIn1 9 9).nome = atletaIn1.nome
  ∧ (atletaOutOf atletaIn1 9 9).cpf = atletaIn1.cpf
  ∧ post_status_code = 201 :=
  post_success_creates_athlete store1 atletaIn1 9 9 categoria0 centro0 rfl rfl rfl

/-- C7: the list handler returns exactly the summary projection of the
rows starting at `offset` and capped at `limit` (store-default order),
never more than `limit` of them, returns the empty sequence rather than
an error when nothing remains (in particular for `limit = 0`), with
defaults 10/0 and the route's 200 status. -/
theorem query_all_paginates (s : Store) (limit offset : Nat) :
    query_all s limit offset =
      .ok (((s.atletas.drop offset).take limit).map (summaryOf s))
  ∧ ((listRows s limit offset).map (summaryOf s)).length ≤ limit
  ∧ query_all s 0 offset = .ok ([] : List AtletaSummary)
  ∧ limit_default = 10 ∧ offset_default = 0 ∧ query_all_status_code = 200 := by
  refine ⟨rfl, ?_, ?_, rfl, rfl, rfl⟩
  · simp [listRows]
  · simp [query_all, listRows]

/-- The id of a row is untouched by a sparse update. -/
theorem applyUpdate_id (a : AtletaModel) (u : AtletaUpdate) :
    (applyUpdate a u).id = a.id := rfl

/-- Looking up the patched primary key in the patched table yields the
updated row. -/
theorem find?_map_applyUpdate (id : Nat) (u : AtletaUpdate)
    (l : List AtletaModel) :
    ∀ a : AtletaModel, l.find? (fun x => x.id == id) = some a →
      (l.map (fun x => if x.id == id then applyUpdate x u else x)).find?
        (fun x => x.id == id) = some (applyUpdate a u) := by
  induction l with
  | nil => intro a h; simp at h
  | cons x xs ih =>
    intro a h
    by_cases hx : (x.id == id) = true
    · have hxa : x = a := by
        rw [List.find?_cons_of_pos (p := fun y : AtletaModel => y.id == id) xs hx] at h
        exact Option.some.inj h
      subst hxa
      simp only [List.map_cons]
      rw [if_pos hx]
      exact List.find?_cons_of_pos (p := fun y : AtletaModel => y.id == id) _ hx
    · rw [List.find?_cons_of_neg (p := fun y : AtletaModel => y.id == id) xs hx] at h
      simp only [List.map_cons]
      rw [if_neg hx, List.find?_cons_of_neg (p := fun y : AtletaModel => y.id == id) _ hx]
      exact ih a h

/-- C4: a patch on an id that resolves to a row applies exactly the
fields explicitly present in the body, keeps every omitted field
(including name, cpf, and the non-updatable id, created_at,
categoria_id, centro_treinamento_id) at its previous value, and the
returned value is the updated row as re-read from the committed store. -/
theorem patch_applies_exactly_present_fields (s : Store) (id : Nat)
    (u : AtletaUpdate) (a : AtletaModel)
    (h : s.atletas.find? (fun x => x.id == id) = some a) :
    patch s id u = (patchedStore s id u, .ok (applyUpdate a u))
  ∧ query_by_id (patchedStore s id u) id = .ok (applyUpdate a u)
  ∧ (∀ v, u.nome = some v → (applyUpdate a u).nome = v)
  ∧ (u.nome = none → (applyUpdate a u).nome = a.nome)
  ∧ (∀ v, u.cpf = some v → (applyUpdate a u).cpf = v)
  ∧ (u.cpf = none → (applyUpdate a u).cpf = a.cpf)
  ∧ (∀ v, u.weight = some v → (applyUpdate a u).weight = v)
  ∧ (u.weight = none → (applyUpdate a u).weight = a.weight)
  ∧ (∀ v, u.height = some v → (applyUpdate a u).height = v)
  ∧ (u.height = none → (applyUpdate a u).height = a.height)
  ∧ (∀ v, u.sex = some v → (applyUpdate a u).sex = v)
  ∧ (u.sex = none → (applyUpdate a u).sex = a.sex)
  ∧ (applyUpdate a u).categoria_id = a.categoria_id
  ∧ (applyUpdate a u).centro_treinamento_id = a.centro_treinamento_id
  ∧ (applyUpdate a u).id = a.id
  ∧ (applyUpdate a u).created_at = a.created_at := by
  have hfind := find?_map_applyUpdate id u s.atletas a h
  refine ⟨by simp [patch, h],
    by simp only [query_by_id, patchedStore]; rw [hfind],
    fun v hv => by simp [applyUpdate, hv], fun h0 => by simp [applyUpdate, h0],
    fun v hv => by simp [applyUpdate, hv], fun h0 => by simp [applyUpdate, h0],
    fun v hv => by simp [applyUpdate, hv], fun h0 => by simp [applyUpdate, h0],
    fun v hv => by simp [applyUpdate, hv], fun h0 => by simp [applyUpdate, h0],
    fun v hv => by simp [applyUpdate, hv], fun h0 => by simp [applyUpdate, h0],
    rfl, rfl, rfl, rfl⟩

/-- A weight-only patch body. -/
def atletaUp0 : AtletaUpdate := { weight := some 70 }

/-- C4 witness: patching only `weight` on id 5 of `store1` commits the
updated row and returns it. -/
theorem patch_applies_exactly_present_fields_witness :
    patch store1 5 atletaUp0 =
      (patchedStore store1 5 atletaUp0, .ok (applyUpdate atleta0 atletaUp0)) :=
  (patch_applies_exactly_present_fields store1 5 atletaUp0 atleta0 rfl).1

/-- C8: deleting an id that does not resolve answers 404 with the store
unchanged; deleting an id that resolves succeeds with no content (route
status 204) and a subsequent fetch-by-id of the same id answers 404. -/
theorem delete_then_fetch_not_found (s : Store) (id : Nat) :
    (s.atletas.find? (fun a => a.id == id) = none →
      delete s id = (s, .error ⟨404, atletaNotFoundMsg id⟩))
  ∧ (∀ a, s.atletas.find? (fun x => x.id == id) = some a →
      (delete s id).2 = .ok ()
      ∧ query_by_id (delete s id).1 id = .error ⟨404, atletaNotFoundMsg id⟩)
  ∧ delete_status_code = 204 := by
  refine ⟨fun h => by simp [delete, h], fun a h => ?_, rfl⟩
  have hnone : (s.atletas.filter (fun a => a.id != id)).find?
      (fun a => a.id == id) = none := by
    rw [List.find?_eq_none]
    intro x hx
    have hne := (List.mem_filter.mp hx).2
    simp only [bne_iff_ne, ne_eq] at hne
    simp [hne]
  exact ⟨by simp [delete, h], by simp [delete, h, query_by_id, hnone]⟩

/-- C8 witness: deleting id 5 from `store1` succeeds and the follow-up
fetch of id 5 answers 404. -/
theorem delete_then_fetch_not_found_witness :
    (delete store1 5).2 = .ok ()
  ∧ query_by_id (delete store1 5).1 5 = .error ⟨404, atletaNotFoundMsg 5⟩ :=
  (delete_then_fetch_not_found store1 5).2.1 atleta0 rfl

/-- C9: the search handler treats an empty-string `nome` or `cpf`
parameter exactly as an absent one (the filter is applied only to a
truthy string), and when the name filter is active it selects only rows
whose stored name equals the non-empty parameter — so a row whose stored
name is the empty string is never selected by it. -/
theorem search_empty_string_filter_ignored (s : Store) (nome cpf : Option String)
    (limit offset : Nat) (n : String) (l : List AtletaModel) (a : AtletaModel) :
    query_by_name_or_cpf s (some "") cpf limit offset =
      query_by_name_or_cpf s none cpf limit offset
  ∧ query_by_name_or_cpf s nome (some "") limit offset =
      query_by_name_or_cpf s nome none limit offset
  ∧ (n ≠ "" → a ∈ applyNomeFilter (some n) l → a.nome = n)
  ∧ (a.nome = "" → n ≠ "" → a ∉ applyNomeFilter (some n) l) := by
  have key : ∀ (n : String) (l : List AtletaModel) (a : AtletaModel),
      n ≠ "" → a ∈ applyNomeFilter (some n) l → a.nome = n := by
    intro n l a hn hmem
    rw [applyNomeFilter, if_pos (bne_iff_ne.mpr hn)] at hmem
    exact eq_of_beq (List.mem_filter.mp hmem).2
  refine ⟨?_, ?_, key n l a,
    fun h0 hn hmem => hn ((key n l a hn hmem).symm.trans h0)⟩
  · simp [query_by_name_or_cpf, searchRows, filteredRows, applyNomeFilter]
  · simp [query_by_name_or_cpf, searchRows, filteredRows, applyCpfFilter]

/-- C9 witness: over `store1`, searching with an empty-string name equals
searching with no name, and row `atleta0`, selected by the active filter
for name `Ana`, indeed bears that non-empty name. -/
theorem search_empty_string_filter_ignored_witness :
    query_by_name_or_cpf store1 (some "") none 10 0 =
      query_by_name_or_cpf store1 none none 10 0
  ∧ atleta0.nome = "Ana" :=
  ⟨(search_empty_string_filter_ignored store1 (some "") none 10 0 "Ana"
      [atleta0] atleta0).1,
   (search_empty_string_filter_ignored store1 (some "") none 10 0 "Ana"
      [atleta0] atleta0).2.2.1 (by decide) (by decide)⟩

/-- C10: pagination is applied to the filtered rows before the emptiness
check, so when filters match a nonempty set of rows but `offset` is at
least their count, or `limit = 0`, the search answers 404 even though
matching rows exist. -/
theorem search_paginates_before_empty_check (s : Store) (nome cpf : Option String)
    (limit offset : Nat)
    (_hne : filteredRows s nome cpf ≠ [])
    (h : (filteredRows s nome cpf).length ≤ offset ∨ limit = 0) :
    query_by_name_or_cpf s nome cpf limit offset = .error ⟨404, searchNotFoundMsg⟩ := by
  have hrows : searchRows s nome cpf limit offset = [] := by
    rcases h with h | h
    · simp [searchRows, List.drop_eq_nil_of_le h]
    · simp [searchRows, h]
  simp [query_by_name_or_cpf, hrows]

/-- C10 witness: `store1` matches one row with no filters, yet offset 1
makes the search answer 404. -/
theorem search_paginates_before_empty_check_witness :
    query_by_name_or_cpf store1 none none 10 1 = .error ⟨404, searchNotFoundMsg⟩ :=
  search_paginates_before_empty_check store1 none none 10 1 (by decide)
    (Or.inl (by decide))

end WorkoutAPI
